import Mathlib

/-!
Shallow embedding of the `purchase.py` module of the `trytond-purchase_edi`
repository: the EDI order-file formatter attached to a purchase order.

The renderer `_make_edi_order_content` is translated segment by segment from
the source.  Each output line of the Python code (one `lines.append(...)`)
becomes one `Seg` value carrying the literal tag of the segment and the rest
of the pipe-delimited text; the final text joins the rendered segments with
CRLF, exactly as the source joins `lines`.  Fallible behaviour (the named
`raise_user_error` calls, the `IndexError` of `party.addresses[0]` on an
empty list, and the `TypeError` of `int(None)`) is modelled with `Except`.

Python values are modelled as follows: `str` by `String` (slicing `s[:n]` by
`pyTake`), `decimal.Decimal` by `PyDec` (sign, coefficient, exponent, with
`__str__`, subtraction, multiplication, `normalize` and `.6f` formatting
translated from the decimal specification; context rounding never triggers
for the coefficient sizes that occur here so it is not modelled), `float`
quantities by `Option ℚ` (`none` models SQL NULL), and dates by `PyDate`.
-/

namespace PurchaseEdi

/-- Python string slicing `s[:n]`, counted in characters. -/
def pyTake (s : String) (n : Nat) : String := ⟨s.data.take n⟩

/-- Python string slicing `s[n:]`, counted in characters. -/
def pyDrop (s : String) (n : Nat) : String := ⟨s.data.drop n⟩

/-- Python `s.replace(chr(10), str())`: drop every newline character. -/
def removeNL (s : String) : String := ⟨s.data.filter (fun c => c != '\n')⟩

/-- Model of a finite Python `decimal.Decimal`: a sign, a coefficient and a
power-of-ten exponent; the value is `(-1)^sign * coeff * 10^exp`. -/
structure PyDec where
  sign : Bool
  coeff : Nat
  exp : Int
  deriving DecidableEq

/-- Rational value of a `PyDec`. -/
def decVal (d : PyDec) : ℚ :=
  (if d.sign then -1 else 1) * (d.coeff : ℚ) * (10 : ℚ) ^ d.exp

/-- Python `str` of a `Decimal`, following the to-scientific-string rules of
the decimal arithmetic specification that `decimal.__str__` implements. -/
def decStr (d : PyDec) : String :=
  let digits := toString d.coeff
  let adjusted : Int := d.exp + digits.length - 1
  let mag :=
    if d.exp ≤ 0 ∧ -6 ≤ adjusted then
      if d.exp = 0 then digits
      else if 0 ≤ adjusted then
        pyTake digits (adjusted + 1).toNat ++ "." ++ pyDrop digits (adjusted + 1).toNat
      else "0." ++ String.mk (List.replicate (-adjusted - 1).toNat '0') ++ digits
    else
      (if digits.length = 1 then digits
        else pyTake digits 1 ++ "." ++ pyDrop digits 1)
        ++ "E" ++ (if 0 ≤ adjusted then "+" else "") ++ toString adjusted
  (if d.sign then "-" else "") ++ mag

/-- Decimal multiplication: exact product of coefficients, sum of exponents. -/
def decMul (a b : PyDec) : PyDec :=
  ⟨xor a.sign b.sign, a.coeff * b.coeff, a.exp + b.exp⟩

/-- The `Decimal` of a natural number literal. -/
def decFromNat (n : Nat) : PyDec := ⟨false, n, 0⟩

/-- Signed integer coefficient of a `PyDec` rescaled to exponent `e ≤ exp`. -/
def decScaled (d : PyDec) (e : Int) : Int :=
  let c : Int := (d.coeff : Int) * (10 : Int) ^ (d.exp - e).toNat
  if d.sign then -c else c

/-- Decimal subtraction: align both operands on the smaller exponent and
subtract the signed coefficients (exact; a zero result is positive, as in the
default decimal context). -/
def decSub (a b : PyDec) : PyDec :=
  let e := min a.exp b.exp
  let v := decScaled a e - decScaled b e
  ⟨v < 0, v.natAbs, e⟩

/-- Remove trailing zero digits from `c`, bumping the exponent once per digit
removed.  The first argument is fuel; `c` itself is always enough fuel. -/
def stripZeros : Nat → Nat → Int → Nat × Int
  | 0, c, e => (c, e)
  | fuel + 1, c, e =>
    if c % 10 = 0 ∧ c ≠ 0 then stripZeros fuel (c / 10) (e + 1) else (c, e)

/-- Python `Decimal.normalize()`: a zero becomes exponent 0, otherwise the
trailing zeros of the coefficient move into the exponent. -/
def decNormalize (d : PyDec) : PyDec :=
  if d.coeff = 0 then ⟨d.sign, 0, 0⟩
  else
    let p := stripZeros d.coeff d.coeff d.exp
    ⟨d.sign, p.1, p.2⟩

/-- Round `num / den` to the nearest natural number, ties to even, as the
default decimal context does. -/
def roundHalfEven (num den : Nat) : Nat :=
  let q := num / den
  let r := num % den
  if 2 * r < den then q
  else if den < 2 * r then q + 1
  else if q % 2 = 0 then q else q + 1

/-- Pad a digit string with zeros on the left up to width `n`. -/
def padLeftZeros (s : String) (n : Nat) : String :=
  String.mk (List.replicate (n - s.length) '0') ++ s

/-- Python `format(d, chr(46) ++ "6f")` on a `Decimal`: fixed six decimal
places, rounding half to even. -/
def format6f (d : PyDec) : String :=
  let scaled : Nat :=
    if 0 ≤ d.exp + 6 then d.coeff * 10 ^ (d.exp + 6).toNat
    else roundHalfEven d.coeff (10 ^ (-(d.exp + 6)).toNat)
  (if d.sign then "-" else "") ++ toString (scaled / 1000000) ++ "."
    ++ padLeftZeros (toString (scaled % 1000000)) 6

/-- Python truthiness of an optional `Decimal` attribute: `None` and a zero
decimal are falsy. -/
def pyDecTruthy : Option PyDec → Bool
  | none => false
  | some d => d.coeff != 0

/-- A Python `datetime.date`. -/
structure PyDate where
  year : Nat
  month : Nat
  day : Nat
  deriving DecidableEq

/-- Zero-pad a number to two digits. -/
def pad2 (n : Nat) : String := if n < 10 then "0" ++ toString n else toString n

/-- Zero-pad a number to four digits. -/
def pad4 (n : Nat) : String := padLeftZeros (toString n) 4

/-- The module constant `DATE_FORMAT` applied through `strftime`: `YYYYMMDD`. -/
def strftime_Ymd (d : PyDate) : String := pad4 d.year ++ pad2 d.month ++ pad2 d.day

/-- Python `int()` on a rational (float) value: truncation toward zero. -/
def pyInt (q : ℚ) : Int := q.num.tdiv (q.den : Int)

/-- The quantity text of the source, `str(int(line.quantity) or 0)`. -/
def pyQtyStr (q : ℚ) : String :=
  let i := pyInt q
  toString (if i = 0 then (0 : Int) else i)

/-- Quantity text of a line whose quantity attribute may be NULL; the `none`
case never reaches the formatter because `int(None)` raises first. -/
def pyQtyStrOpt : Option ℚ → String
  | some q => pyQtyStr q
  | none => ""

/-- The module constant `UOMS` read through `UOMS.get(symbol, str())`. -/
def UOMS_get (symbol : String) : String :=
  if symbol = "kg" then "KGM"
  else if symbol = "u" then "PCE"
  else if symbol = "l" then "LTR"
  else ""

/-- The module constant `CM_TYPES` read through `CM_TYPES.get(type, str())`. -/
def CM_TYPES_get (t : String) : String :=
  if t = "phone" then "TE"
  else if t = "mobile" then "TE"
  else if t = "fax" then "FX"
  else if t = "email" then "EM"
  else ""

/-- A `party.contact_mechanism` record. -/
structure ContactMechanism where
  type : String
  value : String
  deriving DecidableEq

/-- The party fields reached through `address.party` in the renderer. -/
structure PartyRef where
  name : String
  contact_mechanisms : List ContactMechanism
  deriving DecidableEq

/-- A `party.address` record.  The role flags model
`hasattr(address, t) and getattr(address, t)`: `none` means the attribute is
missing, `some b` means it is present with truthiness `b`.  The string fields
are the empty string when unset. -/
structure Address where
  id : Nat
  name : String
  street : String
  city : String
  zip : String
  edi_ean : String
  invoice : Option Bool
  delivery : Option Bool
  party : PartyRef
  deriving DecidableEq

/-- A `party.party` record with the attributes the renderer reads. -/
structure Party where
  rec_name : String
  name : String
  edi_operational_point : String
  vat_code : String
  addresses : List Address
  deriving DecidableEq

/-- A `party.identifier` record (the supplier EDI operational point). -/
structure Identifier where
  code : String
  deriving DecidableEq

/-- A warehouse location with its optional address. -/
structure Warehouse where
  address : Option Address
  deriving DecidableEq

/-- A product record. -/
structure Product where
  code_ean13 : String
  code : String
  name : String
  deriving DecidableEq

/-- A unit of measure. -/
structure Uom where
  symbol : String
  deriving DecidableEq

/-- A tax record; only the rate is read. -/
structure Tax where
  rate : PyDec
  deriving DecidableEq

/-- A `purchase.line` record with the attributes the renderer reads. -/
structure PurchaseLine where
  product : Product
  quantity : Option ℚ
  unit : Uom
  unit_price : PyDec
  gross_unit_price : PyDec
  discount : Option PyDec
  delivery_date : Option PyDate
  note : String
  amount : PyDec
  taxes : List Tax
  deriving DecidableEq

/-- A `purchase.purchase` record with the attributes the module reads.
`company_party` is `self.company.party` and `currency_code` is
`self.currency.code`. -/
structure Purchase where
  id : Nat
  number : String
  edi_order_type : String
  edi_message_function : String
  edi_special_condition : String
  comment : String
  purchase_date : PyDate
  company_party : Party
  party : Party
  supplier_edi_operational_point : Identifier
  warehouse : Option Warehouse
  invoice_address : Address
  currency_code : String
  lines : List PurchaseLine
  total_amount : PyDec
  deriving DecidableEq

/-- The two address-role strings passed to `_get_party_address`. -/
inductive AddrType
  | invoice
  | delivery
  deriving DecidableEq

/-- Dynamic attribute access `getattr(address, address_type)` combined with
the `hasattr` test. -/
def addrFlag (a : Address) : AddrType → Option Bool
  | .invoice => a.invoice
  | .delivery => a.delivery

/-- The source helper `_get_party_address`: first address whose role flag
exists and is truthy, else the first address; `none` models the `IndexError`
of `party.addresses[0]` on an empty list. -/
def _get_party_address (party : Party) (t : AddrType) : Option Address :=
  match party.addresses.find? (fun a => (addrFlag a t).getD false) with
  | some a => some a
  | none => party.addresses.head?

/-- The errors the module can raise.  The first three are the named user
errors registered in `__setup__`; `index_error` and `type_error` model the
unnamed Python exceptions that can escape the renderer. -/
inductive EdiError
  | unfilled_edi_operational_point (rec_name : String)
  | unfilled_wh_edi_ean (addressId : Nat)
  | path_no_exists (path : String)
  | index_error
  | type_error
  deriving DecidableEq

/-- One entry of the `lines` list of `_make_edi_order_content`: the literal
segment tag, the rest of the text, and whether the source passed the string
through `.replace` to drop newlines before appending it. -/
structure Seg where
  tag : String
  body : String
  strip : Bool
  deriving DecidableEq

/-- The string appended to `lines` for a segment. -/
def Seg.render (s : Seg) : String :=
  if s.strip then removeNL (s.tag ++ s.body) else s.tag ++ s.body

/-- The `ORD` segment. -/
def edi_ord (p : Purchase) : Seg :=
  ⟨"ORD", "|" ++ p.number ++ "|" ++ p.edi_order_type ++ "|"
    ++ p.edi_message_function, true⟩

/-- The `DTM` segment. -/
def edi_dtm (p : Purchase) : Seg :=
  ⟨"DTM", "|" ++ strftime_Ymd p.purchase_date, true⟩

/-- The `ALI` segment (special condition). -/
def edi_ali (p : Purchase) : Seg :=
  ⟨"ALI", "|" ++ p.edi_special_condition, true⟩

/-- The `FTX` segment (order comment, cut at 280 characters). -/
def edi_ftx (p : Purchase) : Seg :=
  ⟨"FTX", "|AAI||" ++ pyTake p.comment 280, true⟩

/-- The `NADMS` segment (customer as message recipient). -/
def edi_nadms (customer : Party) (inv : Address) : Seg :=
  ⟨"NADMS", "|" ++ customer.edi_operational_point ++ "|" ++ pyTake customer.name 70
    ++ "|" ++ pyTake inv.street 70 ++ "|" ++ pyTake inv.city 70
    ++ "|" ++ pyTake inv.zip 10 ++ "|" ++ pyTake customer.vat_code 10, true⟩

/-- The `NADMR` segment (supplier operational point). -/
def edi_nadmr (p : Purchase) : Seg :=
  ⟨"NADMR", "|" ++ p.supplier_edi_operational_point.code, true⟩

/-- The `NADSU` segment (supplier as sender). -/
def edi_nadsu (p : Purchase) (supplier : Party) : Seg :=
  ⟨"NADSU", "|" ++ p.supplier_edi_operational_point.code
    ++ "|" ++ pyTake supplier.name 70 ++ "|" ++ pyTake p.invoice_address.street 70
    ++ "|" ++ pyTake p.invoice_address.city 70 ++ "|" ++ pyTake p.invoice_address.zip 10
    ++ "||" ++ pyTake supplier.vat_code 10, true⟩

/-- The `NADBY` segment (buyer). -/
def edi_nadby (customer : Party) (inv : Address) : Seg :=
  ⟨"NADBY", "|" ++ customer.edi_operational_point ++ "||||" ++ pyTake customer.name 70
    ++ "|" ++ pyTake inv.street 70 ++ "|" ++ pyTake inv.city 70
    ++ "|" ++ pyTake inv.zip 10 ++ "|" ++ pyTake customer.vat_code 10, true⟩

/-- The `CTABY` segment (buyer contact name). -/
def edi_ctaby (inv : Address) : Seg :=
  ⟨"CTABY", "|OC|" ++ pyTake inv.name 35, true⟩

/-- The `NADDP` segment (delivery party). -/
def edi_naddp (deliv : Address) : Seg :=
  ⟨"NADDP", "|" ++ deliv.edi_ean ++ "||" ++ pyTake deliv.party.name 70
    ++ "|" ++ pyTake deliv.street 70 ++ "|" ++ pyTake deliv.city 70
    ++ "|" ++ pyTake deliv.zip 10, true⟩

/-- The `CTADP` segment (delivery contact name). -/
def edi_ctadp (deliv : Address) : Seg :=
  ⟨"CTADP", "|OC|" ++ pyTake deliv.name 35, true⟩

/-- One `COMDP` segment for a mapped contact mechanism. -/
def edi_comdp (code : String) (cm : ContactMechanism) : Seg :=
  ⟨"COMDP", "|" ++ code ++ "|" ++ pyTake cm.value 35, true⟩

/-- The loop over the delivery party contact mechanisms: one `COMDP` segment
per mechanism whose type maps to an EDI code (the `contact_mechanism_type`
local of the source is written out), others silently skipped. -/
def comdpSegs (cms : List ContactMechanism) : List Seg :=
  cms.filterMap (fun cm =>
    if CM_TYPES_get cm.type = "" then none
    else some (edi_comdp (CM_TYPES_get cm.type) cm))

/-- The `NADIV` segment (invoice recipient).  The source slices the postal
code with `[:70]` here, not `[:10]` as its own comment announces. -/
def edi_nadiv (customer : Party) (inv : Address) : Seg :=
  ⟨"NADIV", "|" ++ customer.edi_operational_point ++ "||" ++ pyTake customer.name 70
    ++ "|" ++ pyTake inv.street 70 ++ "|" ++ pyTake inv.city 70
    ++ "|" ++ pyTake inv.zip 70 ++ "|" ++ pyTake customer.vat_code 10, true⟩

/-- The `CUX` segment (currency code). -/
def edi_cux (p : Purchase) : Seg :=
  ⟨"CUX", "|" ++ p.currency_code, true⟩

/-- The `MOARES` trailer segment, with its embedded CRLF, appended without
newline stripping. -/
def edi_moares (p : Purchase) : Seg :=
  ⟨"MOARES", "|" ++ pyTake (decStr p.total_amount) 18 ++ "\r\n", false⟩

/-- The `LIN` segment of a line (`index` is the 0-based `enumerate` index). -/
def edi_lin (idx : Nat) (line : PurchaseLine) : Seg :=
  ⟨"LIN", "|" ++ line.product.code_ean13 ++ "|EN|" ++ toString (idx + 1), true⟩

/-- The first `PIALIN` segment (internal code, qualifier IN). -/
def edi_pialin_in (line : PurchaseLine) : Seg :=
  ⟨"PIALIN", "|IN|" ++ pyTake line.product.code 35, true⟩

/-- The second `PIALIN` segment (internal code, qualifier CNA). -/
def edi_pialin_cna (line : PurchaseLine) : Seg :=
  ⟨"PIALIN", "|CNA|" ++ pyTake line.product.code 35, true⟩

/-- The `IMDLIN` segment (product name). -/
def edi_imdlin (line : PurchaseLine) : Seg :=
  ⟨"IMDLIN", "|F|||" ++ pyTake line.product.name 70, true⟩

/-- The `QTYLIN` segment (integer-truncated quantity and mapped unit code). -/
def edi_qtylin (line : PurchaseLine) : Seg :=
  ⟨"QTYLIN", "|21|" ++ pyQtyStrOpt line.quantity ++ "|"
    ++ UOMS_get line.unit.symbol, true⟩

/-- The `DTMLIN` segment (line delivery date). -/
def edi_dtmlin (d : PyDate) : Seg :=
  ⟨"DTMLIN", "||||" ++ strftime_Ymd d ++ "||", true⟩

/-- The `MOALIN` segment (line amount), appended without newline stripping. -/
def edi_moalin (line : PurchaseLine) : Seg :=
  ⟨"MOALIN", "|" ++ pyTake (format6f line.amount) 18, false⟩

/-- The `FTXLIN` segment (line note). -/
def edi_ftxlin (line : PurchaseLine) : Seg :=
  ⟨"FTXLIN", "|" ++ pyTake line.note 350 ++ "|AAI", true⟩

/-- The first `PRILIN` segment (net unit price; the extra `format` arguments
of the source are ignored because the template has a single placeholder). -/
def edi_prilin_aaa (line : PurchaseLine) : Seg :=
  ⟨"PRILIN", "|AAA|" ++ pyTake (format6f line.unit_price) 18, true⟩

/-- The second `PRILIN` segment (gross unit price). -/
def edi_prilin_aab (line : PurchaseLine) : Seg :=
  ⟨"PRILIN", "|AAB|" ++ pyTake (format6f line.gross_unit_price) 18, true⟩

/-- The `TAXLIN` segment (first tax rate times 100), appended without newline
stripping. -/
def edi_taxlin (t : Tax) : Seg :=
  ⟨"TAXLIN", "|VAT|" ++ decStr (decMul t.rate (decFromNat 100)), false⟩

/-- The `ALCLIN` segment (discount percentage times 100 cut at 8 characters,
and the normalized gross-minus-net unit discount cut at 18 characters). -/
def edi_alclin (line : PurchaseLine) (d : PyDec) : Seg :=
  ⟨"ALCLIN", "|A|1|TD||" ++ pyTake (decStr (decMul d (decFromNat 100))) 8
    ++ "|" ++ pyTake (decStr (decNormalize
        (decSub line.gross_unit_price line.unit_price))) 18, true⟩

/-- The optional `ALCLIN` segment of a line, present exactly when the
discount attribute is truthy. -/
def alclinOpt (line : PurchaseLine) : Option Seg :=
  match line.discount with
  | none => none
  | some d => if d.coeff = 0 then none else some (edi_alclin line d)

/-- The body of the `for index, line in enumerate(self.lines)` loop for one
line.  `int(line.quantity)` raises a `TypeError` when the quantity is NULL. -/
def lineSegs (idx : Nat) (line : PurchaseLine) : Except EdiError (List Seg) :=
  match line.quantity with
  | none => .error .type_error
  | some _ =>
    .ok ([edi_lin idx line, edi_pialin_in line, edi_pialin_cna line,
          edi_imdlin line, edi_qtylin line]
      ++ (line.delivery_date.map edi_dtmlin).toList
      ++ [edi_moalin line]
      ++ (if line.note = "" then [] else [edi_ftxlin line])
      ++ [edi_prilin_aaa line, edi_prilin_aab line]
      ++ (line.taxes.head?.map edi_taxlin).toList
      ++ (alclinOpt line).toList)

/-- The whole enumerate loop, threading the 0-based index. -/
def lineBlocks : Nat → List PurchaseLine → Except EdiError (List Seg)
  | _, [] => .ok []
  | idx, l :: rest =>
    match lineSegs idx l with
    | .error e => .error e
    | .ok s =>
      match lineBlocks (idx + 1) rest with
      | .error e => .error e
      | .ok r => .ok (s ++ r)

/-- The delivery address resolution of the renderer: the warehouse address
when the order has a warehouse with an address, else the customer address
scan with the delivery role. -/
def resolveDeliveryAddress (p : Purchase) : Option Address :=
  match p.warehouse with
  | some w =>
    match w.address with
    | some a => some a
    | none => _get_party_address p.company_party .delivery
  | none => _get_party_address p.company_party .delivery

/-- The fixed header section of the message, from the header literal through
the `CUX` segment, for the resolved invoice and delivery addresses. -/
def headerSegs (p : Purchase) (inv deliv : Address) : List Seg :=
  [⟨"ORDERS_D_96A_UN_EAN008", "", false⟩, edi_ord p, edi_dtm p]
    ++ (if p.edi_special_condition = "" then [] else [edi_ali p])
    ++ (if p.comment = "" then [] else [edi_ftx p])
    ++ [edi_nadms p.company_party inv, edi_nadmr p, edi_nadsu p p.party,
        edi_nadby p.company_party inv]
    ++ (if inv.name = "" then [] else [edi_ctaby inv])
    ++ [edi_naddp deliv]
    ++ (if deliv.name = "" then [] else [edi_ctadp deliv])
    ++ comdpSegs deliv.party.contact_mechanisms
    ++ [edi_nadiv p.company_party inv, edi_cux p]

/-- The segment list built by `_make_edi_order_content`, with the data
precondition checks performed in source order before any segment is built. -/
def _make_edi_order_segments (p : Purchase) : Except EdiError (List Seg) :=
  if p.company_party.edi_operational_point = "" then
    .error (.unfilled_edi_operational_point p.company_party.rec_name)
  else if p.party.edi_operational_point = "" then
    .error (.unfilled_edi_operational_point p.party.rec_name)
  else
    match _get_party_address p.company_party .invoice with
    | none => .error .index_error
    | some customer_invoice_address =>
      match resolveDeliveryAddress p with
      | none => .error .index_error
      | some customer_delivery_address =>
        if customer_delivery_address.edi_ean = "" then
          .error (.unfilled_wh_edi_ean customer_delivery_address.id)
        else
          match lineBlocks 0 p.lines with
          | .error e => .error e
          | .ok lsegs =>
            .ok (headerSegs p customer_invoice_address customer_delivery_address
              ++ lsegs ++ [edi_moares p])

/-- Modelled from the spec and the `unidecode` documentation: the external
`unidecode` transliteration, an external collaborator of this module.  ASCII
characters pass through, a representative table of Latin diacritics folds to
base letters, and characters without a known fold map to the empty string. -/
def unidecodeChar (c : Char) : String :=
  if c.toNat < 128 then String.singleton c
  else if c = 'á' ∨ c = 'à' ∨ c = 'ä' ∨ c = 'â' then "a"
  else if c = 'é' ∨ c = 'è' ∨ c = 'ë' ∨ c = 'ê' then "e"
  else if c = 'í' ∨ c = 'ì' ∨ c = 'ï' ∨ c = 'î' then "i"
  else if c = 'ó' ∨ c = 'ò' ∨ c = 'ö' ∨ c = 'ô' then "o"
  else if c = 'ú' ∨ c = 'ù' ∨ c = 'ü' ∨ c = 'û' then "u"
  else if c = 'ñ' then "n"
  else if c = 'ç' then "c"
  else ""

/-- Transliteration of a whole string, character by character. -/
def unidecodeStr (s : String) : String :=
  s.data.foldl (fun acc c => acc ++ unidecodeChar c) ""

/-- The source renderer `_make_edi_order_content`: the segment strings joined
with CRLF and transliterated. -/
def _make_edi_order_content (p : Purchase) : Except EdiError String :=
  match _make_edi_order_segments p with
  | .error e => .error e
  | .ok segs => .ok (unidecodeStr (String.intercalate "\r\n" (segs.map Seg.render)))

/-- The `purchase.configuration` record of the module. -/
structure PurchaseConfiguration where
  path_edi : String
  deriving DecidableEq

/-- The module constant `DEFAULT_FILES_LOCATION`. -/
def DEFAULT_FILES_LOCATION : String := "/tmp/"

/-- Modelled from the standard library: `os.path.abspath` restricted to the
absolute, dot-free paths this module is configured with, where it only strips
trailing slashes (keeping the root). -/
def abspath (s : String) : String :=
  let t : String := ⟨(s.data.reverse.dropWhile (fun c => c == '/')).reverse⟩
  if t = "" then "/" else t

/-- The `path_edi` local of the writer:
`os.path.abspath(purchase_config.path_edi or DEFAULT_FILES_LOCATION)`. -/
def path_edi_of (cfg : PurchaseConfiguration) : String :=
  abspath (if cfg.path_edi = "" then DEFAULT_FILES_LOCATION else cfg.path_edi)

/-- The writer `_create_edi_order_file`.  The filesystem is modelled by the
list of existing directories; a successful run returns the name and content
of the single file the source opens and writes, an error run touches nothing
(the source never creates a directory). -/
def _create_edi_order_file (existing_dirs : List String)
    (cfg : PurchaseConfiguration) (p : Purchase) :
    Except EdiError (String × String) :=
  if path_edi_of cfg ∈ existing_dirs then
    match _make_edi_order_content p with
    | .error e => .error e
    | .ok content =>
      .ok (path_edi_of cfg ++ "/order_" ++ toString p.id ++ ".PLA", content)
  else .error (.path_no_exists (path_edi_of cfg))

/-- Decidable shape of a minimal valid order as the testable property words
it: no comment, no special condition, one line with no note, no discount, no
taxes and no delivery date. -/
def minimalOrderData (p : Purchase) : Prop :=
  p.comment = "" ∧ p.edi_special_condition = "" ∧ p.lines.length = 1
    ∧ ∀ l ∈ p.lines, l.note = "" ∧ pyDecTruthy l.discount = false
        ∧ l.taxes = [] ∧ l.delivery_date = none

instance (p : Purchase) : Decidable (minimalOrderData p) := by
  unfold minimalOrderData
  infer_instance

/-- Party record reached through the customer addresses. -/
def customerRef : PartyRef := ⟨"Custom Comp", []⟩

/-- Customer invoice address fixture. -/
def invAddr : Address :=
  { id := 11, name := "Anna", street := "Main St 1", city := "BCN",
    zip := "08001", edi_ean := "", invoice := some true, delivery := none,
    party := customerRef }

/-- Customer delivery address fixture, carrying the warehouse EAN. -/
def delAddr : Address :=
  { id := 12, name := "Dock", street := "Wh St 2", city := "BCN",
    zip := "08002", edi_ean := "8912345000012", invoice := none,
    delivery := some true, party := customerRef }

/-- Supplier address fixture, used as the order invoice address. -/
def suppAddr : Address :=
  { id := 21, name := "Ben", street := "Supp St 3", city := "MAD",
    zip := "28001", edi_ean := "", invoice := some true, delivery := none,
    party := ⟨"Supp SL", []⟩ }

/-- Customer party fixture. -/
def customerParty : Party :=
  { rec_name := "Custom Comp", name := "Custom Comp",
    edi_operational_point := "8411111111111", vat_code := "ES12345678Z",
    addresses := [invAddr, delAddr] }

/-- Supplier party fixture. -/
def supplierParty : Party :=
  { rec_name := "Supp SL", name := "Supp SL",
    edi_operational_point := "8422222222222", vat_code := "ESB7654321X",
    addresses := [suppAddr] }

/-- Product fixture. -/
def prod1 : Product := ⟨"8400000000017", "PRD-1", "Widget"⟩

/-- Line fixture: five kilograms at 10.50 each, nothing optional set. -/
def line1 : PurchaseLine :=
  { product := prod1, quantity := some (5 : ℚ), unit := ⟨"kg"⟩,
    unit_price := ⟨false, 1050, -2⟩, gross_unit_price := ⟨false, 1050, -2⟩,
    discount := none, delivery_date := none, note := "",
    amount := ⟨false, 5250, -2⟩, taxes := [] }

/-- A complete valid minimal order fixture. -/
def baseOrder : Purchase :=
  { id := 7, number := "P00007", edi_order_type := "220",
    edi_message_function := "9", edi_special_condition := "", comment := "",
    purchase_date := ⟨2020, 1, 2⟩, company_party := customerParty,
    party := supplierParty,
    supplier_edi_operational_point := ⟨"8422222222222"⟩, warehouse := none,
    invoice_address := suppAddr, currency_code := "EUR", lines := [line1],
    total_amount := ⟨false, 5250, -2⟩ }

/-- Order whose customer lacks the EDI operational point. -/
def ordNoCustOp : Purchase :=
  { baseOrder with
    company_party := { customerParty with edi_operational_point := "" } }

/-- Order whose supplier lacks the EDI operational point. -/
def ordNoSupOp : Purchase :=
  { baseOrder with
    party := { supplierParty with edi_operational_point := "" } }

/-- Order whose resolved delivery address lacks the EDI EAN code. -/
def ordNoEan : Purchase :=
  { baseOrder with
    company_party :=
      { customerParty with addresses := [invAddr, { delAddr with edi_ean := "" }] } }

/-- Minimal order whose invoice address has no contact name. -/
def ordNoCtaName : Purchase :=
  { baseOrder with
    company_party :=
      { customerParty with addresses := [{ invAddr with name := "" }, delAddr] } }

/-- Minimal order whose customer invoice address has a 12-character postal
code. -/
def ordLongZip : Purchase :=
  { baseOrder with
    company_party :=
      { customerParty with addresses := [{ invAddr with zip := "123456789012" }, delAddr] } }

/-- Order carrying a 400-character comment with no newline. -/
def ord400 : Purchase :=
  { baseOrder with comment := String.mk (List.replicate 400 'a') }

/-- Line fixture with a NULL quantity. -/
def lineNullQty : PurchaseLine := { line1 with quantity := none }

/-- The rational minus seven halves, written as an explicit reduced
fraction. -/
def qNegSevenHalves : ℚ := ⟨-7, 2, by decide, by decide⟩

/-- Order with a NULL line quantity. -/
def ordNullQty : Purchase := { baseOrder with lines := [lineNullQty] }

/-- Line fixture with a 15 percent discount: gross 10.00, net 8.50. -/
def lineDisc : PurchaseLine :=
  { line1 with
    unit_price := (⟨false, 850, -2⟩),
    gross_unit_price := (⟨false, 1000, -2⟩),
    discount := some (⟨false, 15, -2⟩),
    amount := (⟨false, 4250, -2⟩) }

/-- Order with one discounted line and one plain line. -/
def ordDisc : Purchase := { baseOrder with lines := [lineDisc, line1] }

/-- Delivery party with one mapped and one unmapped contact mechanism. -/
def cmRef : PartyRef :=
  ⟨"Custom Comp", [⟨"phone", "+34930000000"⟩, ⟨"pigeon", "coop 3"⟩]⟩

/-- Delivery address with contact mechanisms on its party. -/
def delAddrCM : Address := { delAddr with party := cmRef }

/-- Order whose delivery party has contact mechanisms and whose line unit is
an unmapped symbol. -/
def ordCM : Purchase :=
  { baseOrder with
    company_party := { customerParty with addresses := [invAddr, delAddrCM] },
    lines := [{ line1 with unit := ⟨"box"⟩ }] }

/-! Helper lemmas shared by the claim theorems. -/

theorem content_error_of_segments_error {p : Purchase} {e : EdiError}
    (h : _make_edi_order_segments p = .error e) :
    _make_edi_order_content p = .error e := by
  unfold _make_edi_order_content
  rw [h]

theorem create_not_ok_of_content_error {p : Purchase} {e : EdiError}
    (fs : List String) (cfg : PurchaseConfiguration)
    (h : _make_edi_order_content p = .error e) :
    (_create_edi_order_file fs cfg p).isOk = false := by
  unfold _create_edi_order_file
  rw [h]
  by_cases hm : path_edi_of cfg ∈ fs
  · rw [if_pos hm]
    rfl
  · rw [if_neg hm]
    rfl

theorem make_segments_ok_shape {p : Purchase} {segs : List Seg}
    (h : _make_edi_order_segments p = .ok segs) :
    ∃ inv deliv lsegs,
      _get_party_address p.company_party .invoice = some inv
      ∧ resolveDeliveryAddress p = some deliv
      ∧ lineBlocks 0 p.lines = .ok lsegs
      ∧ p.company_party.edi_operational_point ≠ ""
      ∧ p.party.edi_operational_point ≠ ""
      ∧ deliv.edi_ean ≠ ""
      ∧ segs = headerSegs p inv deliv ++ lsegs ++ [edi_moares p] := by
  unfold _make_edi_order_segments at h
  split at h
  · exact Except.noConfusion h
  next hA =>
  split at h
  · exact Except.noConfusion h
  next hB =>
  split at h
  · exact Except.noConfusion h
  next inv hinv =>
  split at h
  · exact Except.noConfusion h
  next deliv hdeliv =>
  split at h
  · exact Except.noConfusion h
  next hEan =>
  split at h
  · exact Except.noConfusion h
  next lsegs hlb =>
  cases h
  exact ⟨inv, deliv, lsegs, hinv, hdeliv, hlb, hA, hB, hEan, rfl⟩

theorem alclinOpt_eq_some {line : PurchaseLine} {s : Seg}
    (h : alclinOpt line = some s) :
    ∃ d, line.discount = some d ∧ d.coeff ≠ 0 ∧ s = edi_alclin line d := by
  unfold alclinOpt at h
  split at h
  · exact Option.noConfusion h
  next d hd =>
  split at h
  · exact Option.noConfusion h
  next hc =>
  cases h
  exact ⟨d, hd, hc, rfl⟩

theorem lineSegs_ok_eq {idx : Nat} {l : PurchaseLine} {segs : List Seg}
    (h : lineSegs idx l = .ok segs) :
    ∃ q, l.quantity = some q
      ∧ segs = [edi_lin idx l, edi_pialin_in l, edi_pialin_cna l, edi_imdlin l,
          edi_qtylin l]
        ++ (l.delivery_date.map edi_dtmlin).toList
        ++ [edi_moalin l]
        ++ (if l.note = "" then [] else [edi_ftxlin l])
        ++ [edi_prilin_aaa l, edi_prilin_aab l]
        ++ (l.taxes.head?.map edi_taxlin).toList
        ++ (alclinOpt l).toList := by
  unfold lineSegs at h
  split at h
  · exact Except.noConfusion h
  next q hq =>
  cases h
  exact ⟨q, hq, rfl⟩

theorem lineSegs_filters {idx : Nat} {l : PurchaseLine} {segs : List Seg}
    (h : lineSegs idx l = .ok segs) :
    segs.filter (fun s => s.tag == "QTYLIN") = [edi_qtylin l]
    ∧ segs.filter (fun s => s.tag == "ALCLIN") = (alclinOpt l).toList
    ∧ segs.filter (fun s => s.tag == "FTX") = []
    ∧ segs.filter (fun s => s.tag == "COMDP") = [] := by
  obtain ⟨q, hq, rfl⟩ := lineSegs_ok_eq h
  have halcT : ∀ s ∈ (alclinOpt l).toList, s.tag = "ALCLIN" := by
    intro s hs
    rw [Option.mem_toList, Option.mem_def] at hs
    obtain ⟨d, _, _, rfl⟩ := alclinOpt_eq_some hs
    rfl
  have halcA : List.filter (fun s => s.tag == "ALCLIN") (alclinOpt l).toList
      = (alclinOpt l).toList :=
    List.filter_eq_self.mpr (fun s hs => by rw [halcT s hs]; rfl)
  have halcQ : List.filter (fun s => s.tag == "QTYLIN") (alclinOpt l).toList
      = [] :=
    List.filter_eq_nil_iff.mpr (fun s hs => by rw [halcT s hs]; decide)
  have halcF : List.filter (fun s => s.tag == "FTX") (alclinOpt l).toList = [] :=
    List.filter_eq_nil_iff.mpr (fun s hs => by rw [halcT s hs]; decide)
  have halcC : List.filter (fun s => s.tag == "COMDP") (alclinOpt l).toList = [] :=
    List.filter_eq_nil_iff.mpr (fun s hs => by rw [halcT s hs]; decide)
  refine ⟨?_, ?_, ?_, ?_⟩ <;>
    cases hdd : l.delivery_date <;> cases htx : l.taxes.head? <;>
      by_cases hn : l.note = "" <;>
      simp [List.filter_append, List.filter_cons, halcA, halcQ, halcF, halcC, hn,
        edi_lin, edi_pialin_in, edi_pialin_cna, edi_imdlin, edi_qtylin,
        edi_dtmlin, edi_moalin, edi_ftxlin, edi_prilin_aaa, edi_prilin_aab,
        edi_taxlin]

theorem lineBlocks_filters : ∀ (idx : Nat) (ls : List PurchaseLine)
    (segs : List Seg), lineBlocks idx ls = .ok segs →
    segs.filter (fun s => s.tag == "QTYLIN") = ls.map edi_qtylin
    ∧ segs.filter (fun s => s.tag == "ALCLIN") = ls.filterMap alclinOpt
    ∧ segs.filter (fun s => s.tag == "FTX") = []
    ∧ segs.filter (fun s => s.tag == "COMDP") = [] := by
  intro idx ls
  induction ls generalizing idx with
  | nil =>
    intro segs h
    simp only [lineBlocks, Except.ok.injEq] at h
    subst h
    simp
  | cons l rest ih =>
    intro segs h
    unfold lineBlocks at h
    split at h
    · exact Except.noConfusion h
    next s hs =>
    split at h
    · exact Except.noConfusion h
    next r hr =>
    cases h
    have hb := lineSegs_filters hs
    have hi := ih (idx + 1) r hr
    refine ⟨?_, ?_, ?_, ?_⟩ <;>
      simp only [List.filter_append, hb.1, hb.2.1, hb.2.2.1, hb.2.2.2,
        hi.1, hi.2.1, hi.2.2.1, hi.2.2.2, List.map_cons, List.filterMap_cons,
        List.append_nil, List.nil_append, List.singleton_append]
    cases halc : alclinOpt l <;> simp

theorem lineBlocks_ok_no_null : ∀ (idx : Nat) (ls : List PurchaseLine)
    (segs : List Seg), lineBlocks idx ls = .ok segs →
    ∀ x ∈ ls, x.quantity ≠ none := by
  intro idx ls
  induction ls generalizing idx with
  | nil =>
    intro segs _ x hx
    exact absurd hx (List.not_mem_nil x)
  | cons l rest ih =>
    intro segs h x hx
    unfold lineBlocks at h
    split at h
    · exact Except.noConfusion h
    next s hs =>
    split at h
    · exact Except.noConfusion h
    next r hr =>
    rcases List.mem_cons.mp hx with rfl | hx'
    · obtain ⟨q, hq, _⟩ := lineSegs_ok_eq hs
      rw [hq]
      exact Option.noConfusion
    · exact ih (idx + 1) r hr x hx'

theorem comdpSegs_tags (cms : List ContactMechanism) :
    ∀ s ∈ comdpSegs cms, s.tag = "COMDP" := by
  intro s hs
  unfold comdpSegs at hs
  obtain ⟨cm, _, hcm⟩ := List.mem_filterMap.mp hs
  split at hcm
  · exact Option.noConfusion hcm
  · cases hcm
    rfl

theorem headerSegs_filters (p : Purchase) (inv deliv : Address) :
    (headerSegs p inv deliv).filter (fun s => s.tag == "FTX")
      = (if p.comment = "" then [] else [edi_ftx p])
    ∧ (headerSegs p inv deliv).filter (fun s => s.tag == "QTYLIN") = []
    ∧ (headerSegs p inv deliv).filter (fun s => s.tag == "ALCLIN") = []
    ∧ (headerSegs p inv deliv).filter (fun s => s.tag == "COMDP")
      = comdpSegs deliv.party.contact_mechanisms := by
  have hT := comdpSegs_tags deliv.party.contact_mechanisms
  have hCC : List.filter (fun s => s.tag == "COMDP")
      (comdpSegs deliv.party.contact_mechanisms)
      = comdpSegs deliv.party.contact_mechanisms :=
    List.filter_eq_self.mpr (fun s hs => by rw [hT s hs]; rfl)
  have hCF : List.filter (fun s => s.tag == "FTX")
      (comdpSegs deliv.party.contact_mechanisms) = [] :=
    List.filter_eq_nil_iff.mpr (fun s hs => by rw [hT s hs]; decide)
  have hCQ : List.filter (fun s => s.tag == "QTYLIN")
      (comdpSegs deliv.party.contact_mechanisms) = [] :=
    List.filter_eq_nil_iff.mpr (fun s hs => by rw [hT s hs]; decide)
  have hCA : List.filter (fun s => s.tag == "ALCLIN")
      (comdpSegs deliv.party.contact_mechanisms) = [] :=
    List.filter_eq_nil_iff.mpr (fun s hs => by rw [hT s hs]; decide)
  refine ⟨?_, ?_, ?_, ?_⟩ <;>
    unfold headerSegs <;>
    by_cases h1 : p.edi_special_condition = "" <;> by_cases h2 : p.comment = "" <;>
      by_cases h3 : inv.name = "" <;> by_cases h4 : deliv.name = "" <;>
      simp [h1, h2, h3, h4, List.filter_append, List.filter_cons, hCC, hCF,
        hCQ, hCA, edi_ord, edi_dtm, edi_ali, edi_ftx, edi_nadms, edi_nadmr,
        edi_nadsu, edi_nadby, edi_ctaby, edi_naddp, edi_ctadp, edi_nadiv,
        edi_cux]

/-! Value lemmas for the decimal model. -/

theorem decScaled_val (d : PyDec) (e : Int) (he : e ≤ d.exp) :
    ((decScaled d e : ℤ) : ℚ) * (10 : ℚ) ^ e = decVal d := by
  unfold decScaled decVal
  have hp : ((10 : ℚ) ^ ((d.exp - e).toNat)) * (10 : ℚ) ^ e
      = (10 : ℚ) ^ d.exp := by
    rw [← zpow_natCast (10 : ℚ) (d.exp - e).toNat,
      ← zpow_add₀ (by norm_num : (10 : ℚ) ≠ 0)]
    congr 1
    omega
  by_cases hsgn : d.sign = true
  · rw [if_pos hsgn, if_pos hsgn]
    push_cast
    rw [neg_mul, mul_assoc, hp]
    ring
  · rw [if_neg hsgn, if_neg hsgn]
    push_cast
    rw [mul_assoc, hp]
    ring

theorem decSub_val (a b : PyDec) : decVal (decSub a b) = decVal a - decVal b := by
  unfold decSub
  have hval : ∀ (v : Int) (e : Int),
      decVal ⟨decide (v < 0), v.natAbs, e⟩ = (v : ℚ) * (10 : ℚ) ^ e := by
    intro v e
    show (if (decide (v < 0)) = true then (-1 : ℚ) else 1)
        * (v.natAbs : ℚ) * (10 : ℚ) ^ e = (v : ℚ) * (10 : ℚ) ^ e
    have habs : ((v.natAbs : ℚ)) = |(v : ℚ)| := by
      rw [Int.cast_natAbs, Int.cast_abs]
    simp only [decide_eq_true_eq]
    by_cases hv0 : v < 0
    · rw [if_pos hv0, habs, abs_of_neg (show (v : ℚ) < 0 by exact_mod_cast hv0)]
      ring
    · rw [if_neg hv0, habs,
        abs_of_nonneg (show (0 : ℚ) ≤ (v : ℚ) by exact_mod_cast not_lt.mp hv0)]
      ring
  rw [hval]
  push_cast
  rw [sub_mul]
  rw [decScaled_val a (min a.exp b.exp) (min_le_left _ _),
    decScaled_val b (min a.exp b.exp) (min_le_right _ _)]

theorem decMul_val (a b : PyDec) : decVal (decMul a b) = decVal a * decVal b := by
  unfold decMul decVal
  cases ha : a.sign <;> cases hb : b.sign <;>
    simp [ha, hb, zpow_add₀ (show (10 : ℚ) ≠ 0 by norm_num)] <;>
    ring

theorem decFromNat_val (n : Nat) : decVal (decFromNat n) = (n : ℚ) := by
  unfold decFromNat decVal
  simp

theorem stripZeros_val (f : Nat) : ∀ (c : Nat) (e : Int),
    ((stripZeros f c e).1 : ℚ) * (10 : ℚ) ^ (stripZeros f c e).2
      = (c : ℚ) * (10 : ℚ) ^ e := by
  induction f with
  | zero => intro c e; rfl
  | succ f ih =>
    intro c e
    unfold stripZeros
    by_cases h : c % 10 = 0 ∧ c ≠ 0
    · rw [if_pos h, ih]
      have hd : (10 : ℕ) ∣ c := Nat.dvd_of_mod_eq_zero h.1
      have hc : ((c / 10 : ℕ) : ℚ) * 10 = (c : ℚ) := by
        exact_mod_cast congrArg (Nat.cast (R := ℚ)) (Nat.div_mul_cancel hd)
      rw [zpow_add_one₀ (by norm_num : (10 : ℚ) ≠ 0)]
      rw [← hc]
      ring
    · rw [if_neg h]

theorem stripZeros_strip : ∀ (f c : Nat) (e : Int), c ≤ f →
    (stripZeros f c e).1 = 0 ∨ (stripZeros f c e).1 % 10 ≠ 0 := by
  intro f
  induction f with
  | zero =>
    intro c e hc
    left
    show c = 0
    omega
  | succ f ih =>
    intro c e hc
    unfold stripZeros
    by_cases h : c % 10 = 0 ∧ c ≠ 0
    · rw [if_pos h]
      exact ih (c / 10) (e + 1) (by omega)
    · rw [if_neg h]
      rcases not_and_or.mp h with h1 | h2
      · right
        exact h1
      · left
        omega

theorem decNormalize_val (d : PyDec) : decVal (decNormalize d) = decVal d := by
  unfold decNormalize
  by_cases h : d.coeff = 0
  · rw [if_pos h]
    unfold decVal
    simp [h]
  · rw [if_neg h]
    unfold decVal
    have := stripZeros_val d.coeff d.coeff d.exp
    cases hs : d.sign <;> simp only [hs, if_true, if_false, Bool.false_eq_true] <;>
      rw [mul_assoc, mul_assoc, this]

theorem decNormalize_strip (d : PyDec) :
    (decNormalize d).coeff = 0 ∨ (decNormalize d).coeff % 10 ≠ 0 := by
  unfold decNormalize
  by_cases h : d.coeff = 0
  · rw [if_pos h]
    left
    rfl
  · rw [if_neg h]
    exact stripZeros_strip d.coeff d.coeff d.exp le_rfl

theorem pyTake_length (s : String) (n : Nat) :
    (pyTake s n).length = min n s.length := by
  unfold pyTake
  show (s.data.take n).length = min n s.length
  rw [List.length_take]
  rfl

/-! Claim theorems. -/

/-- C1: when the customer or the supplier party lacks a non-empty EDI
operational point, or the resolved delivery address lacks a non-empty EDI
EAN, the renderer stops with the corresponding named error carrying the
offending party name or address id, produces no segment list and no content,
and the writer produces no file. -/
theorem missing_identifiers_block (p : Purchase) (fs : List String)
    (cfg : PurchaseConfiguration) :
    (p.company_party.edi_operational_point = "" →
      _make_edi_order_segments p
        = .error (.unfilled_edi_operational_point p.company_party.rec_name)
      ∧ _make_edi_order_content p
        = .error (.unfilled_edi_operational_point p.company_party.rec_name)
      ∧ (_create_edi_order_file fs cfg p).isOk = false)
    ∧ (p.company_party.edi_operational_point ≠ "" →
      p.party.edi_operational_point = "" →
      _make_edi_order_segments p
        = .error (.unfilled_edi_operational_point p.party.rec_name)
      ∧ _make_edi_order_content p
        = .error (.unfilled_edi_operational_point p.party.rec_name)
      ∧ (_create_edi_order_file fs cfg p).isOk = false)
    ∧ (∀ a, p.company_party.edi_operational_point ≠ "" →
      p.party.edi_operational_point ≠ "" →
      (_get_party_address p.company_party AddrType.invoice).isSome = true →
      resolveDeliveryAddress p = some a → a.edi_ean = "" →
      _make_edi_order_segments p = .error (.unfilled_wh_edi_ean a.id)
      ∧ _make_edi_order_content p = .error (.unfilled_wh_edi_ean a.id)
      ∧ (_create_edi_order_file fs cfg p).isOk = false) := by
  refine ⟨?_, ?_, ?_⟩
  · intro hc
    have hs : _make_edi_order_segments p
        = .error (.unfilled_edi_operational_point p.company_party.rec_name) := by
      unfold _make_edi_order_segments
      rw [if_pos hc]
    exact ⟨hs, content_error_of_segments_error hs,
      create_not_ok_of_content_error fs cfg (content_error_of_segments_error hs)⟩
  · intro hA hB
    have hs : _make_edi_order_segments p
        = .error (.unfilled_edi_operational_point p.party.rec_name) := by
      unfold _make_edi_order_segments
      rw [if_neg hA, if_pos hB]
    exact ⟨hs, content_error_of_segments_error hs,
      create_not_ok_of_content_error fs cfg (content_error_of_segments_error hs)⟩
  · intro a hA hB hio hda hean
    obtain ⟨inv, hinv⟩ := Option.isSome_iff_exists.mp hio
    have hs : _make_edi_order_segments p = .error (.unfilled_wh_edi_ean a.id) := by
      unfold _make_edi_order_segments
      rw [if_neg hA, if_neg hB, hinv, hda]
      simp [hean]
    exact ⟨hs, content_error_of_segments_error hs,
      create_not_ok_of_content_error fs cfg (content_error_of_segments_error hs)⟩

/-- C1 witness: the three failing fixtures hit the three named errors and no
file value is produced. -/
theorem missing_identifiers_block_witness :
    _make_edi_order_content ordNoCustOp
      = .error (.unfilled_edi_operational_point "Custom Comp")
    ∧ (_create_edi_order_file ["/tmp"] ⟨""⟩ ordNoCustOp).isOk = false
    ∧ _make_edi_order_content ordNoSupOp
      = .error (.unfilled_edi_operational_point "Supp SL")
    ∧ _make_edi_order_content ordNoEan = .error (.unfilled_wh_edi_ean 12) := by
  refine ⟨?_, ?_, ?_, ?_⟩
  · exact ((missing_identifiers_block ordNoCustOp ["/tmp"] ⟨""⟩).1 rfl).2.1
  · exact ((missing_identifiers_block ordNoCustOp ["/tmp"] ⟨""⟩).1 rfl).2.2
  · exact ((missing_identifiers_block ordNoSupOp ["/tmp"] ⟨""⟩).2.1
      (by decide) rfl).2.1
  · exact ((missing_identifiers_block ordNoEan ["/tmp"] ⟨""⟩).2.2
      { delAddr with edi_ean := "" } (by decide) (by decide) (by decide)
      (by decide) rfl).2.1

/-- C2 counterexample: for an order whose rendering itself fails with the
missing-operational-point error and a configured directory that does not
exist, the writer surfaces the path error, not the render error, so the
directory check runs before the content is rendered, contrary to the claim
that the render happens before the directory check. -/
theorem path_check_first_cex :
    _create_edi_order_file ["/tmp"] ⟨"/nonexistent"⟩ ordNoCustOp
      = .error (.path_no_exists "/nonexistent")
    ∧ _make_edi_order_content ordNoCustOp
      = .error (.unfilled_edi_operational_point "Custom Comp")
    ∧ EdiError.path_no_exists "/nonexistent"
      ≠ EdiError.unfilled_edi_operational_point "Custom Comp" :=
  ⟨rfl, rfl, by decide⟩

/-- C2 amended: when the configured (or default) output directory does not
exist the writer fails with the path-specific error naming that path and
writes nothing, for every order, even one whose rendering would itself fail;
the directory check runs before the content is rendered. -/
theorem path_no_exists_blocks_write (fs : List String)
    (cfg : PurchaseConfiguration) (p : Purchase)
    (h : path_edi_of cfg ∉ fs) :
    _create_edi_order_file fs cfg p
      = .error (.path_no_exists (path_edi_of cfg)) := by
  unfold _create_edi_order_file
  rw [if_neg h]

/-- C2 witness: a missing configured directory yields the path error on the
valid base order. -/
theorem path_no_exists_blocks_write_witness :
    _create_edi_order_file ["/tmp"] ⟨"/missing"⟩ baseOrder
      = .error (.path_no_exists "/missing") :=
  path_no_exists_blocks_write ["/tmp"] ⟨"/missing"⟩ baseOrder (by decide)

/-- C9: the renderer is a pure function of the order attribute values:
rendering twice gives identical output, and the output does not depend on
the database identity of the order record (the only attribute the writer
uses but the renderer does not). -/
theorem render_is_pure (p : Purchase) (i : Nat) :
    _make_edi_order_content p = _make_edi_order_content p
    ∧ _make_edi_order_content { p with id := i } = _make_edi_order_content p :=
  ⟨rfl, rfl⟩

/-- C10: the address helper returns the first address whose requested role
flag exists and is truthy, else the first address, hence always an element
of a non-empty address list; on an empty address list it produces the
unnamed index error outcome (`none`), not one of the named user errors. -/
theorem get_party_address_spec (party : Party) (t : AddrType) :
    (party.addresses = [] → _get_party_address party t = none)
    ∧ (party.addresses ≠ [] →
        ∃ a, _get_party_address party t = some a ∧ a ∈ party.addresses)
    ∧ (∀ a, party.addresses.find? (fun x => (addrFlag x t).getD false) = some a →
        _get_party_address party t = some a)
    ∧ (party.addresses.find? (fun x => (addrFlag x t).getD false) = none →
        _get_party_address party t = party.addresses.head?) := by
  refine ⟨?_, ?_, ?_, ?_⟩
  · intro he
    unfold _get_party_address
    rw [he]
    rfl
  · intro hne
    unfold _get_party_address
    cases hf : party.addresses.find? (fun x => (addrFlag x t).getD false) with
    | some a => exact ⟨a, rfl, List.mem_of_find?_eq_some hf⟩
    | none =>
      refine ⟨party.addresses.head hne, List.head?_eq_head hne, List.head_mem hne⟩
  · intro a hf
    unfold _get_party_address
    rw [hf]
  · intro hf
    unfold _get_party_address
    rw [hf]

/-- C3 counterexample: an order satisfying the claimed minimality conditions
(no comment, no special condition, one line with no note, discount, taxes or
delivery date) whose invoice address lacks a contact name renders twenty
segments without the buyer-contact segment, not the claimed twenty-one. -/
theorem minimal_order_tags_cex :
    minimalOrderData ordNoCtaName
    ∧ (_make_edi_order_segments ordNoCtaName).map (fun segs => segs.map Seg.tag)
      = .ok ["ORDERS_D_96A_UN_EAN008", "ORD", "DTM", "NADMS", "NADMR", "NADSU",
          "NADBY", "NADDP", "CTADP", "NADIV", "CUX", "LIN", "PIALIN", "PIALIN",
          "IMDLIN", "QTYLIN", "MOALIN", "PRILIN", "PRILIN", "MOARES"]
    ∧ (["ORDERS_D_96A_UN_EAN008", "ORD", "DTM", "NADMS", "NADMR", "NADSU",
          "NADBY", "NADDP", "CTADP", "NADIV", "CUX", "LIN", "PIALIN", "PIALIN",
          "IMDLIN", "QTYLIN", "MOALIN", "PRILIN", "PRILIN", "MOARES"] : List String)
      ≠ ["ORDERS_D_96A_UN_EAN008", "ORD", "DTM", "NADMS", "NADMR", "NADSU",
          "NADBY", "CTABY", "NADDP", "CTADP", "NADIV", "CUX", "LIN", "PIALIN",
          "PIALIN", "IMDLIN", "QTYLIN", "MOALIN", "PRILIN", "PRILIN", "MOARES"] :=
  ⟨by decide, rfl, by decide⟩

/-- C3 amended: a minimal valid order whose invoice and delivery addresses
both carry a contact name and whose delivery party has no mapped contact
mechanism renders exactly twenty-one segments: the header literal, order,
date, the eight recipient and party segments in fixed order, currency, one
line-item block with no optional sub-segment, and the trailer. -/
theorem minimal_order_tag_sequence (p : Purchase) (inv deliv : Address)
    (hmin : minimalOrderData p)
    (hinv : _get_party_address p.company_party AddrType.invoice = some inv)
    (hda : resolveDeliveryAddress p = some deliv)
    (hA : p.company_party.edi_operational_point ≠ "")
    (hB : p.party.edi_operational_point ≠ "")
    (hE : deliv.edi_ean ≠ "")
    (hiname : inv.name ≠ "") (hdname : deliv.name ≠ "")
    (hcm : ∀ cm ∈ deliv.party.contact_mechanisms, CM_TYPES_get cm.type = "")
    (hq : ∀ l ∈ p.lines, l.quantity.isSome = true) :
    ∃ segs, _make_edi_order_segments p = .ok segs
      ∧ segs.map Seg.tag
        = ["ORDERS_D_96A_UN_EAN008", "ORD", "DTM", "NADMS", "NADMR", "NADSU",
           "NADBY", "CTABY", "NADDP", "CTADP", "NADIV", "CUX", "LIN", "PIALIN",
           "PIALIN", "IMDLIN", "QTYLIN", "MOALIN", "PRILIN", "PRILIN", "MOARES"]
      ∧ segs.length = 21 := by
  obtain ⟨hcom, hcond, hlen, hall⟩ := hmin
  obtain ⟨l, hl⟩ : ∃ l, p.lines = [l] := by
    cases hls : p.lines with
    | nil =>
      rw [hls] at hlen
      simp at hlen
    | cons a t =>
      rw [hls] at hlen
      have ht : t = [] := by
        have : t.length = 0 := by simpa using hlen
        exact List.length_eq_zero.mp this
      exact ⟨a, by rw [ht]⟩
  have hmem : l ∈ p.lines := by
    rw [hl]
    exact List.mem_singleton.mpr rfl
  obtain ⟨hnote, hdisc, htax, hdd⟩ := hall l hmem
  obtain ⟨qv, hq'⟩ := Option.isSome_iff_exists.mp (hq l hmem)
  have halc : alclinOpt l = none := by
    unfold alclinOpt
    cases hld : l.discount with
    | none => rfl
    | some d =>
      rw [hld] at hdisc
      simp [pyDecTruthy] at hdisc
      simp [hdisc]
  have hcmnil : comdpSegs deliv.party.contact_mechanisms = [] := by
    unfold comdpSegs
    exact List.filterMap_eq_nil_iff.mpr (fun cm hcm' => by simp [hcm cm hcm'])
  have hblock : lineSegs 0 l
      = .ok [edi_lin 0 l, edi_pialin_in l, edi_pialin_cna l, edi_imdlin l,
          edi_qtylin l, edi_moalin l, edi_prilin_aaa l, edi_prilin_aab l] := by
    unfold lineSegs
    rw [hq']
    simp [hdd, hnote, htax, halc]
  have hlb : lineBlocks 0 p.lines
      = .ok [edi_lin 0 l, edi_pialin_in l, edi_pialin_cna l, edi_imdlin l,
          edi_qtylin l, edi_moalin l, edi_prilin_aaa l, edi_prilin_aab l] := by
    rw [hl]
    simp [lineBlocks, hblock]
  have hsegs : _make_edi_order_segments p
      = .ok (headerSegs p inv deliv
          ++ [edi_lin 0 l, edi_pialin_in l, edi_pialin_cna l, edi_imdlin l,
             edi_qtylin l, edi_moalin l, edi_prilin_aaa l, edi_prilin_aab l]
          ++ [edi_moares p]) := by
    unfold _make_edi_order_segments
    rw [if_neg hA, if_neg hB, hinv, hda]
    simp [hE, hlb]
  have htags : (headerSegs p inv deliv
        ++ [edi_lin 0 l, edi_pialin_in l, edi_pialin_cna l, edi_imdlin l,
           edi_qtylin l, edi_moalin l, edi_prilin_aaa l, edi_prilin_aab l]
        ++ [edi_moares p]).map Seg.tag
      = ["ORDERS_D_96A_UN_EAN008", "ORD", "DTM", "NADMS", "NADMR", "NADSU",
         "NADBY", "CTABY", "NADDP", "CTADP", "NADIV", "CUX", "LIN", "PIALIN",
         "PIALIN", "IMDLIN", "QTYLIN", "MOALIN", "PRILIN", "PRILIN",
         "MOARES"] := by
    unfold headerSegs
    rw [if_pos hcond, if_pos hcom, if_neg hiname, if_neg hdname, hcmnil]
    simp [edi_ord, edi_dtm, edi_nadms, edi_nadmr, edi_nadsu, edi_nadby,
      edi_ctaby, edi_naddp, edi_ctadp, edi_nadiv, edi_cux, edi_lin,
      edi_pialin_in, edi_pialin_cna, edi_imdlin, edi_qtylin, edi_moalin,
      edi_prilin_aaa, edi_prilin_aab, edi_moares]
  refine ⟨_, hsegs, htags, ?_⟩
  simpa using congrArg List.length htags

/-- C3 witness: the base fixture is minimal with named addresses and renders
the twenty-one claimed segments. -/
theorem minimal_order_tag_sequence_witness :
    ∃ segs, _make_edi_order_segments baseOrder = .ok segs
      ∧ segs.map Seg.tag
        = ["ORDERS_D_96A_UN_EAN008", "ORD", "DTM", "NADMS", "NADMR", "NADSU",
           "NADBY", "CTABY", "NADDP", "CTADP", "NADIV", "CUX", "LIN", "PIALIN",
           "PIALIN", "IMDLIN", "QTYLIN", "MOALIN", "PRILIN", "PRILIN", "MOARES"]
      ∧ segs.length = 21 :=
  minimal_order_tag_sequence baseOrder invAddr delAddr (by decide) (by decide)
    (by decide) (by decide) (by decide) (by decide) (by decide) (by decide)
    (by decide) (by decide)

/-- C4: the invoice-recipient segment does not mirror the message-recipient
truncation limits: on a customer invoice address with a twelve-character
postal code, the `NADMS` segment carries the code cut at ten characters
while the `NADIV` segment carries all twelve, because the source slices with
`[:70]` where its own comment says limit 10. -/
theorem nadiv_zip_not_truncated :
    ((_make_edi_order_segments ordLongZip).toOption.getD []).filter
        (fun s => s.tag == "NADMS")
      = [⟨"NADMS", "|8411111111111|Custom Comp|Main St 1|BCN|1234567890|ES12345678",
          true⟩]
    ∧ ((_make_edi_order_segments ordLongZip).toOption.getD []).filter
        (fun s => s.tag == "NADIV")
      = [⟨"NADIV", "|8411111111111||Custom Comp|Main St 1|BCN|123456789012|ES12345678",
          true⟩]
    ∧ ("1234567890" : String).length = 10
    ∧ ("123456789012" : String).length = 12 :=
  ⟨rfl, rfl, rfl, rfl⟩

/-- C5: the free-text segment is present exactly when the order comment is
non-empty, carrying the comment truncated to 280 characters (at most 280,
and exactly 280 whenever the comment has at least 280 characters, so a
400-character comment is cut to exactly 280). -/
theorem comment_ftx (p : Purchase) (segs : List Seg)
    (h : _make_edi_order_segments p = .ok segs) :
    (p.comment ≠ "" →
      segs.filter (fun s => s.tag == "FTX")
        = [⟨"FTX", "|AAI||" ++ pyTake p.comment 280, true⟩]
      ∧ (pyTake p.comment 280).length ≤ 280
      ∧ (280 ≤ p.comment.length → (pyTake p.comment 280).length = 280))
    ∧ (p.comment = "" → segs.filter (fun s => s.tag == "FTX") = []) := by
  obtain ⟨inv, deliv, lsegs, hinv, hda, hlb, hA, hB, hE, rfl⟩ :=
    make_segments_ok_shape h
  have hh := headerSegs_filters p inv deliv
  have hlbf := lineBlocks_filters 0 p.lines lsegs hlb
  constructor
  · intro hc
    refine ⟨?_, ?_, ?_⟩
    · rw [List.filter_append, List.filter_append, hh.1, hlbf.2.2.1, if_neg hc]
      simp [edi_ftx, edi_moares]
    · rw [pyTake_length]
      exact min_le_left _ _
    · intro h280
      rw [pyTake_length]
      omega
  · intro hc
    rw [List.filter_append, List.filter_append, hh.1, hlbf.2.2.1, if_pos hc]
    simp [edi_moares]

set_option maxRecDepth 8000 in
/-- C5 witness: the 400-character-comment fixture carries one free-text
segment whose payload is the comment cut to exactly 280 characters. -/
theorem comment_ftx_witness :
    ((_make_edi_order_segments ord400).toOption.getD []).filter
        (fun s => s.tag == "FTX")
      = [⟨"FTX", "|AAI||" ++ pyTake ord400.comment 280, true⟩]
    ∧ (pyTake ord400.comment 280).length = 280 := by
  have h := comment_ftx ord400
    ((_make_edi_order_segments ord400).toOption.getD []) rfl
  have hc := h.1 (by decide)
  exact ⟨hc.1, hc.2.2 (by decide)⟩

/-- C6: the quantity segment of every line carries the mapped EDI unit code
(kg, u and l map to KGM, PCE and LTR, anything else to the empty string,
without failing), and one contact segment is emitted per delivery-party
contact mechanism whose type maps to a known EDI code (phone and mobile to
TE, fax to FX, email to EM), unmapped types being silently skipped. -/
theorem unit_and_contact_mapping (p : Purchase) (segs : List Seg)
    (deliv : Address) (h : _make_edi_order_segments p = .ok segs)
    (hda : resolveDeliveryAddress p = some deliv) :
    UOMS_get "kg" = "KGM" ∧ UOMS_get "u" = "PCE" ∧ UOMS_get "l" = "LTR"
    ∧ (∀ sym, sym ≠ "kg" → sym ≠ "u" → sym ≠ "l" → UOMS_get sym = "")
    ∧ CM_TYPES_get "phone" = "TE" ∧ CM_TYPES_get "mobile" = "TE"
    ∧ CM_TYPES_get "fax" = "FX" ∧ CM_TYPES_get "email" = "EM"
    ∧ (∀ t, t ≠ "phone" → t ≠ "mobile" → t ≠ "fax" → t ≠ "email" →
        CM_TYPES_get t = "")
    ∧ segs.filter (fun s => s.tag == "QTYLIN") = p.lines.map edi_qtylin
    ∧ segs.filter (fun s => s.tag == "COMDP")
        = deliv.party.contact_mechanisms.filterMap (fun cm =>
            if CM_TYPES_get cm.type = "" then none
            else some (edi_comdp (CM_TYPES_get cm.type) cm)) := by
  obtain ⟨inv, deliv', lsegs, hinv, hda', hlb, hA, hB, hE, rfl⟩ :=
    make_segments_ok_shape h
  rw [hda'] at hda
  injection hda with hdd
  rw [← hdd]
  have hh := headerSegs_filters p inv deliv'
  have hlbf := lineBlocks_filters 0 p.lines lsegs hlb
  refine ⟨rfl, rfl, rfl, ?_, rfl, rfl, rfl, rfl, ?_, ?_, ?_⟩
  · intro sym h1 h2 h3
    simp [UOMS_get, h1, h2, h3]
  · intro t h1 h2 h3 h4
    simp [CM_TYPES_get, h1, h2, h3, h4]
  · rw [List.filter_append, List.filter_append, hh.2.1, hlbf.1]
    simp [edi_moares]
  · rw [List.filter_append, List.filter_append, hh.2.2.2, hlbf.2.2.2]
    simp [edi_moares, comdpSegs]

/-- C6 witness: on the contact-mechanism fixture (a phone and an unmapped
pigeon mechanism, a line with the unmapped unit symbol box) rendering
succeeds, emits one quantity segment with an empty unit code and exactly one
contact segment, the phone one. -/
theorem unit_and_contact_mapping_witness :
    ((_make_edi_order_segments ordCM).toOption.getD []).filter
        (fun s => s.tag == "QTYLIN")
      = [⟨"QTYLIN", "|21|5|", true⟩]
    ∧ ((_make_edi_order_segments ordCM).toOption.getD []).filter
        (fun s => s.tag == "COMDP")
      = [⟨"COMDP", "|TE|+34930000000", true⟩] := by
  have h := unit_and_contact_mapping ordCM
    ((_make_edi_order_segments ordCM).toOption.getD []) delAddrCM rfl rfl
  constructor
  · rw [h.2.2.2.2.2.2.2.2.2.1]
    rfl
  · rw [h.2.2.2.2.2.2.2.2.2.2]
    rfl

/-- C7 counterexample: a line with a NULL quantity makes rendering fail with
the unnamed TypeError outcome of `int(None)` instead of rendering `0`. -/
theorem null_quantity_cex :
    ordNullQty.lines.map (fun l => l.quantity) = [none]
    ∧ _make_edi_order_segments ordNullQty = .error .type_error
    ∧ _make_edi_order_content ordNullQty = .error .type_error :=
  ⟨rfl, rfl, rfl⟩

/-- C7 amended: the rendered quantity is the line quantity truncated toward
zero (floor for non-negative, ceiling for negative values), the `or 0`
guard is a no-op so a zero quantity renders as the string 0, and a NULL
quantity raises the unnamed TypeError, failing the whole rendering. -/
theorem quantity_semantics (p : Purchase) (q : ℚ) (l : PurchaseLine)
    (idx : Nat) :
    (pyInt q = if 0 ≤ q then ⌊q⌋ else ⌈q⌉)
    ∧ pyQtyStr q = toString (pyInt q)
    ∧ pyQtyStr 0 = "0"
    ∧ (l.quantity = none → lineSegs idx l = .error .type_error)
    ∧ ((∃ x ∈ p.lines, x.quantity = none) →
        (_make_edi_order_segments p).isOk = false) := by
  refine ⟨?_, ?_, rfl, ?_, ?_⟩
  · unfold pyInt
    by_cases h0 : 0 ≤ q
    · rw [if_pos h0, Rat.floor_def]
      exact Int.tdiv_eq_ediv (Rat.num_nonneg.mpr h0) (Int.natCast_nonneg q.den)
    · rw [if_neg h0]
      have hceil : ⌈q⌉ = -⌊-q⌋ := by
        rw [Int.floor_neg, neg_neg]
      rw [hceil, Rat.floor_def, Rat.neg_num, Rat.neg_den]
      have hnum : 0 ≤ -q.num := by
        have : ¬ 0 ≤ q.num := fun hn => h0 (Rat.num_nonneg.mp hn)
        omega
      rw [show q.num.tdiv (q.den : Int) = -((-q.num).tdiv (q.den : Int)) by
        rw [Int.neg_tdiv, neg_neg]]
      rw [Int.tdiv_eq_ediv hnum (Int.natCast_nonneg q.den)]
  · show toString (if pyInt q = 0 then (0 : Int) else pyInt q)
      = toString (pyInt q)
    by_cases h : pyInt q = 0
    · rw [if_pos h, h]
    · rw [if_neg h]
  · intro hq
    unfold lineSegs
    rw [hq]
  · rintro ⟨x, hx, hxq⟩
    cases hok : _make_edi_order_segments p with
    | error e => rfl
    | ok segs =>
      obtain ⟨_, _, lsegs, _, _, hlb, _, _, _, _⟩ := make_segments_ok_shape hok
      exact absurd hxq (lineBlocks_ok_no_null 0 p.lines lsegs hlb x hx)

/-- C7 witness: minus seven halves truncates to minus three, zero renders as
the string 0, and the NULL-quantity fixture fails to render. -/
theorem quantity_semantics_witness :
    pyQtyStr qNegSevenHalves = toString (pyInt qNegSevenHalves)
    ∧ pyQtyStr qNegSevenHalves = "-3"
    ∧ pyQtyStr 0 = "0"
    ∧ lineSegs 0 lineNullQty = .error .type_error
    ∧ (_make_edi_order_segments ordNullQty).isOk = false := by
  refine ⟨(quantity_semantics ordNullQty qNegSevenHalves lineNullQty 0).2.1,
    rfl, (quantity_semantics ordNullQty 0 lineNullQty 0).2.2.1,
    (quantity_semantics ordNullQty 0 lineNullQty 0).2.2.2.1 rfl,
    (quantity_semantics ordNullQty 0 lineNullQty 0).2.2.2.2
      ⟨lineNullQty, by decide, rfl⟩⟩

/-- C8: an allowance segment appears exactly for the lines whose discount
attribute is set and non-zero, carrying the discount times 100 (cut at 8
characters) and the normalized gross-minus-net unit difference (cut at 18
characters); the decimal model subtracts and multiplies exactly and its
normalization preserves the value while removing every trailing zero. -/
theorem discount_alclin (p : Purchase) (segs : List Seg)
    (h : _make_edi_order_segments p = .ok segs) :
    segs.filter (fun s => s.tag == "ALCLIN") = p.lines.filterMap alclinOpt
    ∧ (∀ l ∈ p.lines, (alclinOpt l).isSome = pyDecTruthy l.discount)
    ∧ (∀ l d, l.discount = some d → d.coeff ≠ 0 →
        alclinOpt l = some (edi_alclin l d))
    ∧ (∀ a b : PyDec, decVal (decSub a b) = decVal a - decVal b)
    ∧ (∀ d : PyDec, decVal (decMul d (decFromNat 100)) = decVal d * 100)
    ∧ (∀ d : PyDec, decVal (decNormalize d) = decVal d
        ∧ ((decNormalize d).coeff = 0 ∨ (decNormalize d).coeff % 10 ≠ 0)) := by
  obtain ⟨inv, deliv, lsegs, hinv, hda, hlb, hA, hB, hE, rfl⟩ :=
    make_segments_ok_shape h
  have hh := headerSegs_filters p inv deliv
  have hlbf := lineBlocks_filters 0 p.lines lsegs hlb
  refine ⟨?_, ?_, ?_, decSub_val, ?_,
    fun d => ⟨decNormalize_val d, decNormalize_strip d⟩⟩
  · rw [List.filter_append, List.filter_append, hh.2.2.1, hlbf.2.1]
    simp [edi_moares]
  · intro l _
    unfold alclinOpt pyDecTruthy
    cases l.discount with
    | none => rfl
    | some d => by_cases hc : d.coeff = 0 <;> simp [hc]
  · intro l d hld hc
    unfold alclinOpt
    rw [hld]
    simp [hc]
  · intro d
    rw [decMul_val, decFromNat_val]
    norm_num

/-- C8 witness: the discounted fixture line (discount 0.15, gross 10.00, net
8.50) yields exactly one allowance segment carrying 15.00 and the normalized
difference 1.5, and the model subtraction is exact on those values. -/
theorem discount_alclin_witness :
    ((_make_edi_order_segments ordDisc).toOption.getD []).filter
        (fun s => s.tag == "ALCLIN")
      = [⟨"ALCLIN", "|A|1|TD||15.00|1.5", true⟩]
    ∧ decVal (decSub ⟨false, 1000, -2⟩ ⟨false, 850, -2⟩)
      = decVal ⟨false, 1000, -2⟩ - decVal ⟨false, 850, -2⟩ := by
  have h := discount_alclin ordDisc
    ((_make_edi_order_segments ordDisc).toOption.getD []) rfl
  constructor
  · rw [h.1]
    rfl
  · exact h.2.2.2.1 ⟨false, 1000, -2⟩ ⟨false, 850, -2⟩

/-- C10 witness: the delivery scan picks the flagged second address of the
customer fixture, and an empty list gives the index-error outcome. -/
theorem get_party_address_spec_witness :
    _get_party_address customerParty AddrType.delivery = some delAddr
    ∧ _get_party_address ⟨"X", "X", "", "", []⟩ AddrType.invoice = none
    ∧ delAddr ∈ customerParty.addresses := by
  refine ⟨?_, ?_, by decide⟩
  · exact (get_party_address_spec customerParty AddrType.delivery).2.2.1
      delAddr (by decide)
  · exact (get_party_address_spec ⟨"X", "X", "", "", []⟩ AddrType.invoice).1 rfl

end PurchaseEdi
